import Mathlib

/-!
Verification of `src/include/cppast/libclang_parser.hpp` (cppast's libclang
parser interface): the compilation-database handle with its move operations,
the libclang compile configuration with its setters and name tag, the
`find_config_for` extension fallback, and the two batch entry points
`parse_files` and `parse_database`. Functions whose bodies live in the
implementation file rather than the header are modelled from the
specification and marked as such.
-/

namespace Cppast

/-- The `libclang_compilation_database` state (header lines 51-90): it holds one
opaque `database` handle (`using database = void*`); `none` models `nullptr`. -/
structure libclang_compilation_database where
  database_ : Option Nat
deriving DecidableEq

/-- Move construction (header lines 58-62): the new object is initialised with
`other.database_`, then `other.database_ = nullptr`. Returns the pair
(constructed object, moved-from source). -/
def db_move_ctor (other : libclang_compilation_database) :
    libclang_compilation_database × libclang_compilation_database :=
  ({ database_ := other.database_ }, { database_ := none })

/-- Move assignment (header lines 66-71) for distinct objects: `tmp` is
move-constructed from `other`, then `std::swap(tmp.database_, database_)`;
`tmp` is destroyed holding the destination's old handle. Returns
(destination after, source after, handle released with `tmp`). -/
def db_move_assign (dst src : libclang_compilation_database) :
    libclang_compilation_database × libclang_compilation_database × Option Nat :=
  let tmp : libclang_compilation_database := (db_move_ctor src).1
  let srcAfter : libclang_compilation_database := (db_move_ctor src).2
  let dstAfter : libclang_compilation_database := { database_ := tmp.database_ }
  let tmpAfter : libclang_compilation_database := { database_ := dst.database_ }
  (dstAfter, srcAfter, tmpAfter.database_)

/-- Move assignment (header lines 66-71) executed with `other` aliasing `*this`
(`d = std::move(d)`), traced step by step on the single underlying object:
the move construction of `tmp` copies the handle into `tmp` and nulls the
object; the swap then puts the handle back and leaves `tmp` with null. -/
def self_move_assign (d : libclang_compilation_database) :
    libclang_compilation_database :=
  let tmp : libclang_compilation_database := { database_ := d.database_ }
  let afterMove : libclang_compilation_database := { database_ := none }
  let afterSwap : libclang_compilation_database := { database_ := tmp.database_ }
  let _tmpAfterSwap : libclang_compilation_database := { database_ := afterMove.database_ }
  afterSwap

/-- Modelled from the spec: the parsed `compile_commands.json` content behind the
opaque handle — the ordered list of entries, each a file key with the recorded
compile-command tokens. The loader, `has_config` and `detail::for_each_file`
bodies are not part of the header. -/
structure database_contents where
  entries : List (String × List String)
deriving DecidableEq

/-- Modelled from the spec: `libclang_compilation_database::has_config`
(declared at header line 75) — whether the database lists an entry keyed by
the file name, by exact string match. -/
def has_config (db : database_contents) (file_name : String) : Bool :=
  db.entries.any (fun e => e.1 == file_name)

/-- The `libclang_compile_config` state (header lines 93-179): the compiler
binary and packed version, the three boolean knobs stored as bit-fields, and
the argument list `flags_` inherited from `compile_config` (the base class is
not part of the header; the spec describes it as an ordered sequence of
strings passed to the front-end verbatim). -/
structure libclang_compile_config where
  flags_ : List String
  clang_binary_ : String
  clang_version_ : Int
  write_preprocessed_ : Bool
  fast_preprocessing_ : Bool
  remove_comments_in_macro_ : Bool
deriving DecidableEq, Inhabited

/-- The setter `set_clang_binary` (header lines 123-127): stores the binary path
and packs the version as `major * 10000 + minor * 100 + patch`. -/
def set_clang_binary (c : libclang_compile_config) (binary : String)
    (ma mi pa : Int) : libclang_compile_config :=
  { c with clang_binary_ := binary, clang_version_ := ma * 10000 + mi * 100 + pa }

/-- The setter `write_preprocessed` (header lines 131-134). -/
def write_preprocessed (c : libclang_compile_config) (b : Bool) :
    libclang_compile_config :=
  { c with write_preprocessed_ := b }

/-- The setter `fast_preprocessing` (header lines 144-147). -/
def fast_preprocessing (c : libclang_compile_config) (b : Bool) :
    libclang_compile_config :=
  { c with fast_preprocessing_ := b }

/-- The setter for the macro-comment knob (header lines 153-156): stores the
flag; the header documents that when it is `true`, `clang` is invoked with
`-CC`, otherwise with `-C`. -/
def remove_comments_in_macro (c : libclang_compile_config) (b : Bool) :
    libclang_compile_config :=
  { c with remove_comments_in_macro_ := b }

/-- Modelled from the spec: the comment-retention option handed to the
preprocessor invocation (the invocation lives in the implementation file) —
`-CC`, which retains comments inside macro expansions, when the knob is set;
`-C`, which strips them, otherwise. -/
def comment_flag (c : libclang_compile_config) : String :=
  if c.remove_comments_in_macro_ then "-CC" else "-C"

/-- The name tag `do_get_name` (header lines 167-170): every libclang compile
configuration reports the constant tag "libclang". -/
def do_get_name (_ : libclang_compile_config) : String :=
  "libclang"

/-- The defaulted copy of `libclang_compile_config` (header lines 118-119):
member-wise copy of every field. All members are value types (a string, an
int, bit-field bools, and the base's string vector), so the copy shares no
storage with the original. -/
def copy_config (c : libclang_compile_config) : libclang_compile_config :=
  { flags_ := c.flags_
    clang_binary_ := c.clang_binary_
    clang_version_ := c.clang_version_
    write_preprocessed_ := c.write_preprocessed_
    fast_preprocessing_ := c.fast_preprocessing_
    remove_comments_in_macro_ := c.remove_comments_in_macro_ }

/-- Modelled from the spec: `do_add_include_dir` (declared at header line 161)
appends `-I<path>`; a duplicate path is dropped silently. -/
def do_add_include_dir (c : libclang_compile_config) (path : String) :
    libclang_compile_config :=
  let flag := "-I" ++ path
  if c.flags_.contains flag then c else { c with flags_ := c.flags_ ++ [flag] }

/-- Modelled from the spec: whether an argument is a definition of the macro
called `name`, that is `-D<name>` or `-D<name>=...`. -/
def defines_macro_named (name arg : String) : Bool :=
  arg == "-D" ++ name || ("-D" ++ name ++ "=").isPrefixOf arg

/-- Modelled from the spec: `do_add_macro_definition` (declared at header
line 163) removes any previous definition of the same name, then appends
`-D<name>` when the definition is empty and `-D<name>=<definition>` else. -/
def do_add_macro_definition (c : libclang_compile_config)
    (name definition : String) : libclang_compile_config :=
  let kept := c.flags_.filter (fun a => ! defines_macro_named name a)
  { c with
    flags_ := kept ++
      [if definition = "" then "-D" ++ name else "-D" ++ name ++ "=" ++ definition] }

/-- Modelled from the spec: `do_remove_macro_definition` (declared at header
line 165) erases any earlier definition of the name and appends `-U<name>`. -/
def do_remove_macro_definition (c : libclang_compile_config) (name : String) :
    libclang_compile_config :=
  { c with
    flags_ := c.flags_.filter (fun a => ! defines_macro_named name a) ++ ["-U" ++ name] }

/-- One mutation through the setter surface of `libclang_compile_config`. -/
inductive Setter where
  | setClangBinary (binary : String) (ma mi pa : Int)
  | setWritePreprocessed (b : Bool)
  | setFastPreprocessing (b : Bool)
  | setRemoveCommentsInMacro (b : Bool)
  | addIncludeDir (path : String)
  | addMacroDefinition (name definition : String)
  | removeMacroDefinition (name : String)
deriving DecidableEq

/-- Dispatch of one setter to the corresponding operation. -/
def apply_setter (c : libclang_compile_config) : Setter → libclang_compile_config
  | .setClangBinary binary ma mi pa => set_clang_binary c binary ma mi pa
  | .setWritePreprocessed b => write_preprocessed c b
  | .setFastPreprocessing b => fast_preprocessing c b
  | .setRemoveCommentsInMacro b => remove_comments_in_macro c b
  | .addIncludeDir path => do_add_include_dir c path
  | .addMacroDefinition name definition => do_add_macro_definition c name definition
  | .removeMacroDefinition name => do_remove_macro_definition c name

/-- The two-object state (original, copy) after copying a configuration and
applying one setter to the copy only. The original slot is untouched, which is
faithful to the source because the defaulted member-wise copy shares no
storage with the original. -/
def copy_then_mutate (c : libclang_compile_config) (s : Setter) :
    libclang_compile_config × libclang_compile_config :=
  (c, apply_setter (copy_config c) s)

/-- Modelled from the spec: the database constructor
`libclang_compile_config(database, file)` (declared at header line 116) —
locate the record for `file`, discard the program name and the terminating
input-file argument of its recorded command, and inject the remaining tokens
into the argument list of a default configuration. The spec's further
filtering of tokens that the enumerated operations could not also set is left
unmodelled: no claim depends on the exact token set of the built
configuration, only on which record it is built from. When no record exists the
spec prescribes a ConfigNotFound failure; the callers below only construct
from listed files, and that case returns the default configuration here. -/
def config_from_database (db : database_contents) (file : String) :
    libclang_compile_config :=
  match db.entries.find? (fun e => e.1 == file) with
  | some e => { (default : libclang_compile_config) with flags_ := (e.2.drop 1).dropLast }
  | none => default

/-- The fixed ordered candidate-extension list of `find_config_for`, modelled
from the spec (the function body is not in the header). -/
def fallback_extensions : List String :=
  [".cpp", ".cc", ".cxx", ".c++", ".C", ".c", ".hpp", ".hh", ".hxx", ".h++", ".H", ".h"]

/-- Modelled from the spec: remove the extension — the final dot and everything
after it — from a file name; a name without a dot is returned unchanged. -/
def strip_extension (s : String) : String :=
  match s.toList.reverse.dropWhile (fun c => c != '.') with
  | [] => s
  | _ :: stemRev => String.mk stemRev.reverse

/-- Modelled from the spec: `find_config_for` (declared at header
lines 188-189) — if the database lists `file_name`, return the configuration
built from its record; otherwise strip the extension and try each fallback
extension in order, returning the configuration of the first listed
candidate; empty when none is listed. -/
def find_config_for (db : database_contents) (file_name : String) :
    Option libclang_compile_config :=
  if has_config db file_name then some (config_from_database db file_name)
  else
    fallback_extensions.findSome? (fun ext =>
      let cand := strip_extension file_name ++ ext
      if has_config db cand then some (config_from_database db cand) else none)

/-- One recorded invocation of `parser.parse(file, config)`. -/
structure ParseCall where
  file : String
  config : libclang_compile_config
deriving DecidableEq

/-- The error thrown by the `get_config` lambda of `parse_files` (header
lines 229-234): a `libclang_error` naming the file that has no configuration —
the spec's ConfigNotFound kind. -/
inductive BatchError where
  | config_not_found (file : String)
deriving DecidableEq

/-- The batch entry point `parse_files` (header lines 223-235), with the
underlying loop over the names modelled from the spec (it lives in the base
`parser.hpp`, not in this header): each name in turn is resolved through
`find_config_for`; a resolved name is parsed with its configuration; an
unresolved name makes the `get_config` lambda throw, which ends the run — the
spec: the batch facade surfaces the first failure of a file. Returns the parse
calls performed and the error, if any. -/
def parse_files (db : database_contents) (file_names : List String) :
    List ParseCall × Option BatchError :=
  match file_names with
  | [] => ([], none)
  | f :: rest =>
    match find_config_for db f with
    | none => ([], some (.config_not_found f))
    | some cfg =>
      let r := parse_files db rest
      (⟨f, cfg⟩ :: r.1, r.2)

/-- Modelled from the spec: `detail::for_each_file` (declared at header
lines 34-35) visits every entry of the database exactly once, in the order the
loader yields, handing the visitor each entry's file key. -/
def for_each_file (db : database_contents) : List String :=
  db.entries.map Prod.fst

/-- The batch entry point `parse_database` (header lines 245-261): for each
file `for_each_file` yields, construct the configuration from that file's
database record and call `parser.parse(file, config)`. -/
def parse_database (db : database_contents) : List ParseCall :=
  (for_each_file db).map (fun file => ⟨file, config_from_database db file⟩)

/-- The parser type a `FileParser` uses, as inspected by the `static_assert`
of the batch entry points; the header's own parser class is the libclang
parser. -/
inductive ParserKind where
  | libclang
  | other (name : String)
deriving DecidableEq

/-- The `static_assert(std::is_same<typename FileParser::parser,
libclang_parser>::value, "must use the libclang parser")` guard of
`parse_files` (header lines 227-228) and `parse_database` (header
lines 248-249), embedded as an explicit check on the parser kind. -/
def parser_type_is_libclang (k : ParserKind) : Bool :=
  k == ParserKind.libclang

/-- The spec's InvalidArgument error kind: the configuration or parser handed
to an entry point is of the wrong kind. -/
inductive ValidationError where
  | invalid_argument
deriving DecidableEq

/-- The entry point `parse_files` together with its parser-type validation
(header lines 227-228): a rejected parser kind is the spec's InvalidArgument
failure. -/
def parse_files_checked (k : ParserKind) (db : database_contents)
    (names : List String) :
    Except ValidationError (List ParseCall × Option BatchError) :=
  if parser_type_is_libclang k then .ok (parse_files db names)
  else .error .invalid_argument

/-- The entry point `parse_database` together with its parser-type validation
(header lines 248-249). -/
def parse_database_checked (k : ParserKind) (db : database_contents) :
    Except ValidationError (List ParseCall) :=
  if parser_type_is_libclang k then .ok (parse_database db)
  else .error .invalid_argument

/-- Modelled from the spec: the observable outcome of one
`libclang_parser::do_parse` call (declared at header lines 206-207) as far as
configuration identity is concerned — the driver first checks the
configuration's name tag against its own tag "libclang"; on mismatch it fails
with InvalidArgument before spawning any child process, otherwise it proceeds
to the preprocessing pass, which spawns the preprocessor child. Returns the
error, if any, and the number of child processes spawned. -/
def do_parse (config_name_tag : String) : Option ValidationError × Nat :=
  if config_name_tag = "libclang" then (none, 1)
  else (some .invalid_argument, 0)

/-- Helper: a `findSome?` whose function guards a `some` with a boolean test
returns the image of the first element passing the test. -/
theorem findSome_guard_eq_find_map {α β : Type} (l : List α) (p : α → Bool)
    (f : α → β) :
    (l.findSome? fun x => if p x then some (f x) else none) = (l.find? p).map f := by
  induction l with
  | nil => rfl
  | cons a l ih =>
    cases h : p a with
    | true => simp [List.findSome?_cons, List.find?_cons, h]
    | false => simp [List.findSome?_cons, List.find?_cons, h, ih]

/-- C1: `find_config_for` returns the configuration built from the database
record for the file itself when the file is listed; otherwise it returns the
configuration built from the record of the first extension-substituted
candidate that is listed, taking the fallback extensions in their fixed order,
and empty when no candidate is listed. -/
theorem find_config_for_spec (db : database_contents) (file_name : String) :
    find_config_for db file_name =
      if has_config db file_name then some (config_from_database db file_name)
      else
        (fallback_extensions.find? fun ext =>
            has_config db (strip_extension file_name ++ ext)).map
          (fun ext => config_from_database db (strip_extension file_name ++ ext)) := by
  unfold find_config_for
  cases h : has_config db file_name with
  | true => simp [h]
  | false =>
    simp only [h, Bool.false_eq_true, if_false]
    exact findSome_guard_eq_find_map fallback_extensions
      (fun ext => has_config db (strip_extension file_name ++ ext))
      (fun ext => config_from_database db (strip_extension file_name ++ ext))

/-- C2: after setting the macro-comment knob, the preprocessor comment option
is `-CC` (comments inside macro expansions retained) exactly when the knob was
set to true, and `-C` (those comments stripped) when it was set to false. -/
theorem comment_flag_of_knob (c : libclang_compile_config) (b : Bool) :
    comment_flag ( remove_comments_in_macro c b) = if b then "-CC" else "-C" := by
  cases b <;> rfl

/-- C5: every libclang compile configuration's name tag is the string
"libclang", and a parse call whose configuration carries a different name tag
fails with InvalidArgument having spawned no child process. -/
theorem parser_identity_spec (c : libclang_compile_config) (tag : String)
    (h : tag ≠ "libclang") :
    do_get_name c = "libclang" ∧
    do_parse tag = (some ValidationError.invalid_argument, 0) := by
  refine ⟨rfl, ?_⟩
  simp [do_parse, h]

theorem parser_identity_spec_witness :
    do_get_name default = "libclang" ∧
    do_parse "other" = (some ValidationError.invalid_argument, 0) :=
  parser_identity_spec default "other" (by decide)

/-- C6: moving a compilation database, by construction or by assignment,
hands the source's opaque handle to the destination and leaves the source's
handle null. -/
theorem db_move_spec (dst src : libclang_compilation_database) :
    (db_move_ctor src).1.database_ = src.database_ ∧
    (db_move_ctor src).2.database_ = none ∧
    (db_move_assign dst src).1.database_ = src.database_ ∧
    (db_move_assign dst src).2.1.database_ = none :=
  ⟨rfl, rfl, rfl, rfl⟩

/-- C7: `set_clang_binary` stores the given path as the configuration's
compiler binary and the version packed as `major * 10000 + minor * 100 +
patch`. -/
theorem set_clang_binary_spec (c : libclang_compile_config) (binary : String)
    (ma mi pa : Int) :
    (set_clang_binary c binary ma mi pa).clang_binary_ = binary ∧
    (set_clang_binary c binary ma mi pa).clang_version_ =
      ma * 10000 + mi * 100 + pa :=
  ⟨rfl, rfl⟩

/-- C9: the defaulted copy of a configuration equals the original in every
member, and mutating the copy through any setter leaves the original slot of
the two-object state unchanged while the copy evolves exactly as the original
would have. -/
theorem copy_independence_spec (c : libclang_compile_config) (s : Setter) :
    copy_config c = c ∧
    (copy_then_mutate c s).1 = c ∧
    (copy_then_mutate c s).2 = apply_setter c s :=
  ⟨rfl, rfl, rfl⟩

/-- C3 counterexample: with a database listing only "b.cpp" and the name list
["a.cpp", "b.cpp"], `find_config_for` resolves "b.cpp", yet `parse_files`
makes no parse call at all — the unresolvable first name aborts the run — so
it is not the case that every name with a configuration is parsed. -/
theorem parse_files_claim_counterexample :
    (find_config_for ⟨[("b.cpp", ["cc", "b.cpp"])]⟩ "b.cpp").isSome = true ∧
    parse_files ⟨[("b.cpp", ["cc", "b.cpp"])]⟩ ["a.cpp", "b.cpp"] =
      ([], some (BatchError.config_not_found "a.cpp")) := by
  constructor
  · rfl
  · rfl

/-- C3 (amended): `parse_files` processes the given names in order; each name
before the first unresolvable one is parsed with its resolved configuration,
and when an unresolvable name exists the run fails with ConfigNotFound for
that first such name, processing no later name. -/
theorem parse_files_spec (db : database_contents) (names : List String) :
    parse_files db names =
      ((names.takeWhile fun f => (find_config_for db f).isSome).map
          (fun f => ⟨f, (find_config_for db f).getD default⟩),
       ((names.dropWhile fun f => (find_config_for db f).isSome).head?).map
          BatchError.config_not_found) := by
  induction names with
  | nil => rfl
  | cons f rest ih =>
    cases h : find_config_for db f with
    | none =>
      simp [parse_files, List.takeWhile_cons, List.dropWhile_cons, h]
    | some cfg =>
      simp [parse_files, List.takeWhile_cons, List.dropWhile_cons, h, ih]

/-- C4: `parse_database` issues exactly one parse call per database entry, in
the loader's order, and each call's configuration is the one built from that
file's database record. -/
theorem parse_database_spec (db : database_contents) :
    (parse_database db).map ParseCall.file = db.entries.map Prod.fst ∧
    ∀ call ∈ parse_database db, call.config = config_from_database db call.file := by
  constructor
  · simp [parse_database, for_each_file]
  · intro call hc
    simp only [parse_database, for_each_file, List.map_map, List.mem_map] at hc
    obtain ⟨e, _, rfl⟩ := hc
    rfl

theorem parse_database_spec_witness :
    (ParseCall.mk "a.cpp"
        (config_from_database ⟨[("a.cpp", ["cc", "-I.", "a.cpp"])]⟩ "a.cpp")).config =
      config_from_database ⟨[("a.cpp", ["cc", "-I.", "a.cpp"])]⟩ "a.cpp" :=
  (parse_database_spec ⟨[("a.cpp", ["cc", "-I.", "a.cpp"])]⟩).2 _ (by
    simp [parse_database, for_each_file])

/-- C8: both batch entry points validate the parser type — with the libclang
parser they proceed to their loops, with any other parser type they fail with
InvalidArgument. -/
theorem batch_validation_spec (k : ParserKind) (db : database_contents)
    (names : List String) :
    (k = ParserKind.libclang →
        parse_files_checked k db names = .ok (parse_files db names) ∧
        parse_database_checked k db = .ok (parse_database db)) ∧
    (k ≠ ParserKind.libclang →
        parse_files_checked k db names = .error ValidationError.invalid_argument ∧
        parse_database_checked k db = .error ValidationError.invalid_argument) := by
  constructor
  · intro h
    subst h
    exact ⟨rfl, rfl⟩
  · intro h
    have hk : parser_type_is_libclang k = false := by
      cases k with
      | libclang => exact absurd rfl h
      | other name => rfl
    constructor
    · simp [parse_files_checked, hk]
    · simp [parse_database_checked, hk]

theorem batch_validation_spec_witness :
    parse_files_checked (ParserKind.other "x") ⟨[]⟩ [] =
        .error ValidationError.invalid_argument ∧
    parse_database_checked ParserKind.libclang ⟨[]⟩ =
        .ok (parse_database ⟨[]⟩) :=
  ⟨((batch_validation_spec (ParserKind.other "x") ⟨[]⟩ []).2 (by simp)).1,
   ((batch_validation_spec ParserKind.libclang ⟨[]⟩ []).1 rfl).2⟩

/-- C10: self-move-assignment is safe — after `d = std::move(d)` the database
owns the same opaque handle it owned before, unchanged. -/
theorem self_move_assign_spec (d : libclang_compilation_database) :
    self_move_assign d = d :=
  rfl

end Cppast
